import Mathlib

/-!
Verification of the ClaudeStack routing/dispatch subsystem.

Shallow embedding of `src/router.py` (class `ClaudeStackRouter`) and
`src/agents/agent_runner.py` (class `ClaudeStackAgent`).  Files are modelled
as `Option String` (absent, or the content); the filesystem side effects of a
cycle are made explicit in the returned state.  Timestamps and the measured
processing time are opaque `String` parameters (the Python code formats
`datetime.now()` / `time.time()`; their values never influence control flow).
The external Anthropic call is a parameter `callModel : String → Except String
String`: `Except.ok text` is a successful generation, `Except.error e` is a
raised exception with message `e`.
-/

namespace ClaudeStack

/-- Idealized content digest.  `get_file_hash` in both Python files computes
`hashlib.md5(raw_bytes).hexdigest()`; the Fingerprint invariant of the spec is that
equal content gives equal digests and distinct content gives distinct digests
(with overwhelming probability).  We model the digest as the content itself,
the standard collision-free idealization, which makes the invariant exact. -/
def md5 (s : String) : String := s

/-- Embedding of `get_file_hash` (router.py lines 63-68 and agent_runner.py lines 224-229):
`None` when the file does not exist, else the digest of its raw bytes. -/
def get_file_hash (file : Option String) : Option String := file.map md5

/-- Python `str.strip()` with no argument: remove leading and trailing
whitespace.  Defined by structural recursion over the character list so that
concrete instances evaluate inside the kernel. -/
def pyStrip (s : String) : String :=
  String.mk (((s.data.dropWhile Char.isWhitespace).reverse.dropWhile Char.isWhitespace).reverse)

/-- Python `str.lower()` for the ASCII labels used here: lowercase every
character. -/
def pyLower (s : String) : String := String.mk (s.data.map Char.toLower)

/-- Python `str.title()` for the ASCII agent names used here: the first
alphabetic character of each run of letters is uppercased, the rest
lowercased. -/
def pyTitleAux : List Char → Bool → List Char
  | [], _ => []
  | c :: cs, prevAlpha =>
    if c.isAlpha then
      (if prevAlpha then c.toLower else c.toUpper) :: pyTitleAux cs true
    else
      c :: pyTitleAux cs false

def pyTitle (s : String) : String := String.mk (pyTitleAux s.data false)

/-- Embedding of `json.dump(mapping, f, indent=2)` for a string-to-string mapping, as both
`load_routing_rules` and `load_model_assignment` use it to persist their
default tables.  Python dicts preserve insertion order and `json.dump` is
deterministic, so the persisted bytes are a pure function of the table. -/
def json_dump_indent2 (m : List (String × String)) : String :=
  "\x7b\n" ++
    String.intercalate ",\n"
      (m.map (fun p => "  \x22" ++ p.1 ++ "\x22: \x22" ++ p.2 ++ "\x22")) ++
  "\n\x7d"

/-- Embedding of `log_message` (router.py lines 133-138): each appended record is the
message wrapped with a fresh timestamp and terminated by a newline. -/
def log_message_entry (ts msg : String) : String :=
  "[" ++ ts ++ "] " ++ msg ++ "\n"

namespace Router

/-- The default routing rules written by `load_routing_rules` (router.py
lines 49-57) when `config/routing_rules.json` is absent. -/
def default_rules : List (String × String) :=
  [("feature_request", "planner"),
   ("code_question", "helper"),
   ("ui_request", "designer"),
   ("bug_fix", "coder"),
   ("code_review", "reviewer"),
   ("testing", "tester"),
   ("general", "helper")]

/-- Embedding of `load_routing_rules` (router.py lines 41-61).  Input: the persisted
config file (`none` if absent).  Output: the rules the router will use, and
the bytes written back to the config file (`none` when nothing is written,
i.e. when the persisted file already existed). -/
def load_routing_rules (persisted : Option (List (String × String))) :
    List (String × String) × Option String :=
  match persisted with
  | some rules => (rules, none)
  | none => (default_rules, some (json_dump_indent2 default_rules))

/-- The classification prompt built by `classify_intent` (router.py lines
72-87), with the user message interpolated at the two f-string slots. -/
def classification_prompt (message : String) : String :=
  "\nYou are a message classifier for ClaudeStack, a multi-agent AI development framework.\n\nAnalyze the following user message and classify it into ONE of these categories:\n- feature_request: User wants to build/add a new feature\n- code_question: User has questions about existing code or general programming\n- ui_request: User wants UI/UX design or frontend work\n- bug_fix: User reports a bug or wants something fixed\n- code_review: User wants code reviewed\n- testing: User wants tests written or testing help\n- general: Anything else\n\nUser message: \x22" ++ message ++ "\x22\n\nRespond with ONLY the category name (e.g., \x22feature_request\x22).\n"

/-- Embedding of `classify_intent` (router.py lines 70-105).  On a successful external
call the response text is stripped and lowercased; the result is returned
when it is a key of the loaded routing rules, otherwise the fallback
`"general"`.  Any exception from the external call also yields
`"general"`. -/
def classify_intent (rules : List (String × String))
    (callModel : String → Except String String) (message : String) : String :=
  match callModel (classification_prompt message) with
  | Except.error _ => "general"
  | Except.ok raw =>
    let intent := pyLower (pyStrip raw)
    if (rules.lookup intent).isSome then intent else "general"

/-- The log entry produced in the exception branch of `classify_intent`
(router.py line 104): nothing on success, one `log_message` record on
failure. -/
def classify_error_log (callModel : String → Except String String)
    (message ts : String) : List String :=
  match callModel (classification_prompt message) with
  | Except.error e => [log_message_entry ts ("Error classifying intent: " ++ e)]
  | Except.ok _ => []

/-- The target lookup in `route_message` (router.py line 109):
`self.routing_rules.get(intent, "helper")`. -/
def resolve_route (rules : List (String × String)) (intent : String) : String :=
  (rules.lookup intent).getD "helper"

/-- The routed envelope text written by `route_message` (router.py lines
113-122). -/
def routed_content (ts intent message : String) : String :=
  "# New Request - " ++ ts ++ "\n\n**Intent:** " ++ intent ++ "\n**Original Message:**\n\n" ++ message ++ "\n\n---\n"

/-- Router state: the rules loaded at start, the remembered digest of the
shared inbox (`self.last_chat_hash`), the per-agent inbound files
(`inbox/{agent}.md`, modelled as a map from agent name to file content), and
the activity log (`logs/messages.log`, as the list of appended records). -/
structure RouterState where
  rules : List (String × String)
  lastChatHash : Option String
  inboxes : String → Option String
  log : List String

/-- Embedding of `route_message` (router.py lines 107-131): overwrite the inbound file of the target
agent with the envelope and append a routing-decision record.  Returns
the updated state and the target agent. -/
def route_message (st : RouterState) (message intent ts : String) :
    RouterState × String :=
  let target := resolve_route st.rules intent
  let content := routed_content ts intent message
  let entry := log_message_entry ts
    ("[" ++ ts ++ "] Routed user query (intent: " ++ intent ++ ") to " ++ target)
  ({ st with
      inboxes := fun a => if a = target then some content else st.inboxes a,
      log := st.log ++ [entry] },
   target)

/-- Embedding of `process_chat_input` (router.py lines 140-167), one polling cycle.
`chatFile` is the current content of `inbox/chat.txt` (`none` if absent).
Returns the new state and the boolean the Python function returns (`true`
exactly when a message was routed).  Following the source: the digest is
compared first, then the message is read and stripped; empty messages return
`False` without updating the remembered digest; the digest is updated after
classification and routing, at the end of the cycle. -/
def process_chat_input (st : RouterState) (chatFile : Option String)
    (callModel : String → Except String String) (ts : String) :
    RouterState × Bool :=
  match chatFile with
  | none => (st, false)
  | some content =>
    if some (md5 content) = st.lastChatHash then (st, false)
    else
      let message := pyStrip content
      if message = "" then (st, false)
      else
        let intent := classify_intent st.rules callModel message
        let stLogged := { st with log := st.log ++ classify_error_log callModel message ts }
        let routed := route_message stLogged message intent ts
        ({ routed.1 with lastChatHash := some (md5 content) }, true)

end Router

namespace Agent

/-- The default model assignments in `load_model_assignment`
(agent_runner.py lines 61-71). -/
def default_assignments : List (String × String) :=
  [("chat", "claude-3-5-sonnet-20241022"),
   ("planner", "claude-3-opus-20240229"),
   ("tasker", "claude-3-5-sonnet-20241022"),
   ("coder", "claude-3-5-sonnet-20241022"),
   ("reviewer", "claude-3-opus-20240229"),
   ("tester", "claude-3-5-sonnet-20241022"),
   ("designer", "claude-3-opus-20240229"),
   ("frontend", "claude-3-5-sonnet-20241022"),
   ("helper", "claude-3-5-sonnet-20241022")]

/-- Embedding of `load_model_assignment` (agent_runner.py lines 56-83).  Input: the agent
name and the persisted `config/model_assignments.json` (`none` if absent).
Output: the model the agent will use —
`assignments.get(self.agent_name, "claude-3-5-sonnet-20241022")` — and the
bytes written back to the config file (`none` when it already existed). -/
def load_model_assignment (agentName : String)
    (persisted : Option (List (String × String))) : String × Option String :=
  match persisted with
  | some assignments =>
    ((assignments.lookup agentName).getD "claude-3-5-sonnet-20241022", none)
  | none =>
    ((default_assignments.lookup agentName).getD "claude-3-5-sonnet-20241022",
     some (json_dump_indent2 default_assignments))

/-- The built-in default prompt templates in `get_default_prompt`
(agent_runner.py lines 102-216), keyed by agent name.  Apostrophes and double
quotes inside the templates are written with `\x27` / `\x22` escapes; the
string values are byte-for-byte those of the Python triple-quoted literals
(each begins and ends with a newline). -/
def default_prompts : List (String × String) :=
  [("chat", "\nYou are Claude-Chat, the main interface for ClaudeStack.\n\nYour role:\n- Receive user input and understand their intent\n- Provide helpful responses when appropriate\n- The router will handle directing complex requests to other agents\n\nBe conversational, helpful, and professional. If a user asks something that would be better handled by a specialist agent, acknowledge their request and let them know it\x27s being routed appropriately.\n"),
   ("planner", "\nYou are Claude-Planner, an expert in breaking down software feature requests into clear technical plans.\n\nInput: A user request for a feature or system.\nOutput: A markdown plan with these sections:\n- 📌 **Objective**: Clear statement of what needs to be built\n- 🛠 **Implementation Plan**: Detailed bullet points covering:\n  - Architecture decisions\n  - Key components needed\n  - Technology choices\n  - Integration points\n  - Potential challenges\n\nBe precise, include system boundaries, and consider scalability and maintainability.\n"),
   ("tasker", "\nYou are Claude-Tasker. Your job is to convert planning docs into atomic developer tasks.\n\nInput: Claude-Planner\x27s implementation plan.\nOutput: Markdown task list, formatted as:\n- [ ] Task Name - brief description (estimated time)\n\nRules:\n- Each task should be completable in < 30 minutes ideally\n- Tasks should be specific and actionable\n- Include setup, implementation, and testing tasks\n- Order tasks logically (dependencies first)\n- Be clear about what \x22done\x22 looks like for each task\n"),
   ("coder", "\nYou are Claude-Coder. You write clean, efficient, production-ready code based on task descriptions.\n\nInput: One specific development task.\nOutput: Complete code implementation with:\n- Well-commented, readable code\n- Error handling where appropriate\n- Following best practices for the language/framework\n- Include any necessary imports/dependencies\n\nFocus on code quality, security, and maintainability. If the task is unclear, ask for clarification.\n"),
   ("reviewer", "\nYou are Claude-Reviewer. You provide thorough, constructive code reviews.\n\nInput: Code implementation from Claude-Coder.\nOutput: Detailed review covering:\n- ✅ **Strengths**: What\x27s done well\n- ⚠️ **Issues**: Problems that need fixing (security, bugs, performance)\n- 💡 **Suggestions**: Improvements for readability, maintainability\n- 🎯 **Verdict**: APPROVED / NEEDS_CHANGES / MAJOR_REVISION\n\nBe thorough but constructive. Focus on code quality, security, performance, and best practices.\n"),
   ("tester", "\nYou are Claude-Tester. You write comprehensive tests and identify potential issues.\n\nInput: Code implementation or feature description.\nOutput: Test suite including:\n- Unit tests for individual functions\n- Integration tests for component interactions\n- Edge case testing\n- Error condition testing\n- Performance considerations\n\nUse appropriate testing frameworks and follow testing best practices. Include both positive and negative test cases.\n"),
   ("designer", "\nYou are Claude-Designer, a UI/UX architect focused on user experience.\n\nInput: Feature requirements or user interface needs.\nOutput: Design specification including:\n- 🎨 **User Experience Flow**: Step-by-step user journey\n- 📱 **Interface Design**: Layout and component descriptions\n- 🎯 **Key Interactions**: How users will interact with the feature\n- 📋 **Component List**: Specific UI components needed\n- 💡 **Design Principles**: Accessibility, usability considerations\n\nKeep designs simple, user-friendly, and implementable. Focus on solving user problems effectively.\n"),
   ("frontend", "\nYou are Claude-Frontend. You implement UI components based on design specifications.\n\nInput: UI component descriptions, wireframes, or design specs.\nOutput: Frontend code including:\n- HTML structure\n- CSS styling (responsive design)\n- JavaScript functionality\n- Framework-specific code (React, Vue, etc.) if specified\n\nCreate clean, accessible, and responsive interfaces. Follow modern web standards and best practices.\n"),
   ("helper", "\nYou are Claude-Helper, a general-purpose coding assistant.\n\nYour role:\n- Answer questions about code architecture and logic\n- Explain complex programming concepts\n- Provide guidance on tools and technologies\n- Help debug issues\n- Offer best practice recommendations\n\nBe helpful, educational, and provide practical advice. Include examples when helpful.\n")]

/-- The generic fallback template returned by `get_default_prompt` for an
agent name absent from the built-in dictionary (agent_runner.py lines
218-222). -/
def generic_prompt (agentName : String) : String :=
  "\nYou are Claude-" ++ pyTitle agentName ++ ", a specialized AI assistant.\n\nPlease provide helpful and accurate responses based on your role.\n"

/-- Embedding of `get_default_prompt` (agent_runner.py lines 100-222):
`prompts.get(self.agent_name, <generic fallback naming the agent>)`. -/
def get_default_prompt (agentName : String) : String :=
  (default_prompts.lookup agentName).getD (generic_prompt agentName)

/-- Embedding of `load_prompt_template` (agent_runner.py lines 85-98).  Input: the
persisted `prompts/{agent}.txt` (`none` if absent).  Output: the template
the agent will use, and the bytes written to the prompt file (`none` when it
already existed; the default is written unstripped and returned
unstripped). -/
def load_prompt_template (agentName : String) (persisted : Option String) :
    String × Option String :=
  match persisted with
  | some t => (pyStrip t, none)
  | none => (get_default_prompt agentName, some (get_default_prompt agentName))

/-- The combined prompt built in `process_input` (agent_runner.py line 253). -/
def full_prompt (tmpl inputText : String) : String :=
  tmpl ++ "\n\n---\n\nUser Input:\n" ++ inputText

/-- The record `log_interaction` appends (agent_runner.py lines 231-246).
`ptime` is the formatted `{processing_time:.2f}` value (opaque here). -/
def log_interaction_entry (agentName ptime model : String)
    (inputLen outputLen : Nat) (ts : String) : String :=
  "\n[" ++ ts ++ "] Claude-" ++ pyTitle agentName ++ " processed request\nProcessing time: " ++ ptime ++ "s\nModel: " ++ model ++ "\nInput length: " ++ toString inputLen ++ " chars\nOutput length: " ++ toString outputLen ++ " chars\n---\n"

/-- Embedding of `process_input` (agent_runner.py lines 248-273).  Returns the output
text and the activity log after the call.  On success the interaction record
is appended; in the exception branch the function returns the error string
without calling `log_interaction`. -/
def process_input (agentName model tmpl : String) (log : List String)
    (inputText : String) (callModel : String → Except String String)
    (ts ptime : String) : String × List String :=
  match callModel (full_prompt tmpl inputText) with
  | Except.ok outputText =>
    (outputText,
     log ++ [log_interaction_entry agentName ptime model inputText.length outputText.length ts])
  | Except.error e => ("Error processing request: " ++ e, log)

/-- The outbound file text written by `check_for_input` (agent_runner.py
lines 304-310). -/
def output_content (agentName ts output : String) : String :=
  "# Claude-" ++ pyTitle agentName ++ " Output - " ++ ts ++ "\n\n" ++ output ++ "\n\n---\n*Generated by ClaudeStack Agent Runner*\n"

/-- Agent worker state: the remembered digest of its inbound file
(`self.last_input_hash`), the outbound file `outbox/{agent}.md`, and the
activity log. -/
structure AgentState where
  lastInputHash : Option String
  outbox : Option String
  log : List String

/-- Embedding of `check_for_input` (agent_runner.py lines 275-319), one polling cycle.
`inboxFile` is the current content of `inbox/{agent}.md`.  Mirrors the
source: digest compared first (the `current_hash is None` disjunct of line
284 is subsumed by the existence check, since the hash of an existing file is
never `None`); stripped-empty input returns `False` without updating the
digest; otherwise the input is processed, the outbound file is overwritten,
and the digest is updated.  The cycle always returns — the only failure
channel of the external call is the `Except` consumed inside
`process_input`, so no exception escapes the loop body. -/
def check_for_input (agentName model tmpl : String) (st : AgentState)
    (inboxFile : Option String) (callModel : String → Except String String)
    (ts ptime : String) : AgentState × Bool :=
  match inboxFile with
  | none => (st, false)
  | some content =>
    if some (md5 content) = st.lastInputHash then (st, false)
    else
      let inputText := pyStrip content
      if inputText = "" then (st, false)
      else
        let pr := process_input agentName model tmpl st.log inputText callModel ts ptime
        ({ lastInputHash := some (md5 content),
           outbox := some (output_content agentName ts pr.1),
           log := pr.2 }, true)

end Agent

/-- The two write mechanisms a component could use to publish a file.
`route_message` (router.py lines 124-125) and `check_for_input`
(agent_runner.py lines 312-313) both use `open(path, "w")` followed by
`write`, i.e. a direct in-place overwrite; neither writes to a temporary
location with an atomic rename. -/
inductive FileWrite where
  | direct (path content : String)
  | atomicViaTemp (tmpPath path content : String)
deriving DecidableEq

/-- The write `route_message` performs for the routed envelope (router.py
lines 110 and 124-125): a direct overwrite of `inbox/{target}.md`. -/
def route_message_write (target ts intent message : String) : FileWrite :=
  FileWrite.direct ("inbox/" ++ target ++ ".md") (Router.routed_content ts intent message)

/-- Modelled from the spec: the file contents a concurrently polling reader
can observe while a write is in progress, given the previous content `old`.
A direct `open(path, "w")` followed by `write(content)` first truncates the file and then
fills it, so every prefix of the new content (including the empty truncated
state) is observable in some interleaving; a temporary-location write
followed by an atomic rename exposes only the old and the new content. -/
def observable_states (old : String) : FileWrite → List String
  | FileWrite.direct _ content =>
    old :: (List.range (content.data.length + 1)).map (fun n => String.mk (content.data.take n))
  | FileWrite.atomicViaTemp _ _ content => [old, content]

end ClaudeStack

namespace ClaudeStack

/-- Helper: a router cycle whose remembered digest already matches the inbox
content reports no change and leaves the state untouched. -/
theorem process_chat_input_of_hash_eq (st : Router.RouterState) (c ts : String)
    (cm : String → Except String String) (h : st.lastChatHash = some (md5 c)) :
    Router.process_chat_input st (some c) cm ts = (st, false) := by
  simp [Router.process_chat_input, h]

/-- Helper: an agent cycle whose remembered digest already matches the inbox
content reports no change and leaves the state untouched. -/
theorem check_for_input_of_hash_eq (agentName model tmpl : String) (st : Agent.AgentState)
    (d ts ptime : String) (cm : String → Except String String)
    (h : st.lastInputHash = some (md5 d)) :
    Agent.check_for_input agentName model tmpl st (some d) cm ts ptime = (st, false) := by
  simp [Agent.check_for_input, h]

/-- Helper: the outbound file text is never empty (it begins with a fixed
header). -/
theorem output_content_ne_empty (a ts o : String) : Agent.output_content a ts o ≠ "" := by
  intro h
  have h2 := congrArg String.length h
  simp [Agent.output_content, String.length_append] at h2
  exact absurd h2.1.1.1.1.1.1 (by decide)

/-- Helper: closed form of a routing cycle that fires — the target inbox is
overwritten with the envelope, the routing record is appended, and the
remembered digest becomes the digest of the raw inbox content. -/
theorem process_chat_input_routes (st : Router.RouterState) (c ts : String)
    (cm : String → Except String String)
    (h1 : some (md5 c) ≠ st.lastChatHash) (h2 : pyStrip c ≠ "") :
    Router.process_chat_input st (some c) cm ts
      = ({ rules := st.rules,
           lastChatHash := some (md5 c),
           inboxes := fun a =>
             if a = Router.resolve_route st.rules (Router.classify_intent st.rules cm (pyStrip c))
             then some (Router.routed_content ts (Router.classify_intent st.rules cm (pyStrip c)) (pyStrip c))
             else st.inboxes a,
           log := (st.log ++ Router.classify_error_log cm (pyStrip c) ts) ++
                  [log_message_entry ts ("[" ++ ts ++ "] Routed user query (intent: "
                     ++ Router.classify_intent st.rules cm (pyStrip c) ++ ") to "
                     ++ Router.resolve_route st.rules (Router.classify_intent st.rules cm (pyStrip c)))] },
         true) := by
  simp [Router.process_chat_input, if_neg h1, if_neg h2, Router.route_message]

/-- Claim C1, counterexample.  The claim says that resolving the profile of
an agent identifier with no entry in the model assignments and no built-in
default profile fails with a Configuration error.  In the code it does not
fail: for the agent identifier "ghost", absent from the persisted
assignments, from the built-in default assignments and from the built-in
prompt dictionary, `load_model_assignment` silently returns the generic
model and `get_default_prompt` returns the generic persona naming the
agent. -/
theorem C1_counterexample :
    (Agent.load_model_assignment "ghost" (some [("helper", "claude-3-5-sonnet-20241022")])).1
        = "claude-3-5-sonnet-20241022"
    ∧ Agent.default_assignments.lookup "ghost" = none
    ∧ Agent.default_prompts.lookup "ghost" = none
    ∧ Agent.get_default_prompt "ghost"
        = "\nYou are Claude-Ghost, a specialized AI assistant.\n\nPlease provide helpful and accurate responses based on your role.\n" := by
  refine ⟨by decide, by decide, by decide, by decide⟩

/-- Claim C1, amended.  For every agent identifier with no entry in the
persisted model assignments, profile resolution does not fail: the model
silently defaults to claude-3-5-sonnet-20241022, and an agent identifier
with no built-in default persona receives the generic persona naming the
agent. -/
theorem C1_amended (agentName : String) (assignments : List (String × String))
    (h1 : assignments.lookup agentName = none)
    (h2 : Agent.default_prompts.lookup agentName = none) :
    (Agent.load_model_assignment agentName (some assignments)).1 = "claude-3-5-sonnet-20241022"
    ∧ Agent.get_default_prompt agentName = Agent.generic_prompt agentName := by
  constructor
  · simp [Agent.load_model_assignment, h1]
  · simp [Agent.get_default_prompt, h2]

/-- Witness for C1_amended at the concrete agent identifier "router2". -/
theorem C1_witness :
    ([] : List (String × String)).lookup "router2" = none
    ∧ Agent.default_prompts.lookup "router2" = none
    ∧ ((Agent.load_model_assignment "router2" (some [])).1 = "claude-3-5-sonnet-20241022"
       ∧ Agent.get_default_prompt "router2" = Agent.generic_prompt "router2") :=
  ⟨by decide, by decide, C1_amended "router2" [] (by decide) (by decide)⟩

/-- Claim C2, counterexample.  The claim says a processing record is
appended to the Activity Log both on success and on failure of the external
generation call.  In the code `log_interaction` is called only in the
success branch of `process_input`: here a cycle fires (returns true) with a
failing external call and the log stays empty. -/
theorem C2_counterexample :
    ((Agent.check_for_input "helper" "claude-3-5-sonnet-20241022" "tmpl"
        ⟨none, none, []⟩ (some "do something") (fun _ => Except.error "API timeout") "TS" "0.10").1).log = []
    ∧ (Agent.check_for_input "helper" "claude-3-5-sonnet-20241022" "tmpl"
        ⟨none, none, []⟩ (some "do something") (fun _ => Except.error "API timeout") "TS" "0.10").2 = true := by
  refine ⟨by decide, by decide⟩

/-- Claim C2, amended.  For every triggered Agent Worker cycle, a processing
record is appended to the Activity Log exactly when the external generation
call succeeds; when the call fails, the error response is produced but no
record is appended. -/
theorem C2_amended (agentName model tmpl content ts ptime : String) (st : Agent.AgentState)
    (callModel : String → Except String String)
    (h1 : some (md5 content) ≠ st.lastInputHash) (h2 : pyStrip content ≠ "") :
    ((Agent.check_for_input agentName model tmpl st (some content) callModel ts ptime).1).log
      = match callModel (Agent.full_prompt tmpl (pyStrip content)) with
        | Except.ok out => st.log ++ [Agent.log_interaction_entry agentName ptime model (pyStrip content).length out.length ts]
        | Except.error _ => st.log := by
  simp only [Agent.check_for_input, if_neg h1, if_neg h2, Agent.process_input]
  cases callModel (Agent.full_prompt tmpl (pyStrip content)) <;> simp

/-- Witness for C2_amended at a concrete successful cycle. -/
theorem C2_witness :
    (some (md5 "fix the bug") ≠ (none : Option String))
    ∧ pyStrip "fix the bug" ≠ ""
    ∧ ((Agent.check_for_input "coder" "m" "t" ⟨none, none, []⟩
          (some "fix the bug") (fun _ => Except.ok "done") "TS" "0.1").1).log
        = [] ++ [Agent.log_interaction_entry "coder" "0.1" "m" (pyStrip "fix the bug").length "done".length "TS"] :=
  ⟨by decide, by decide,
   C2_amended "coder" "m" "t" "fix the bug" "TS" "0.1" ⟨none, none, []⟩
     (fun _ => Except.ok "done") (by decide) (by decide)⟩

/-- Claim C3, counterexample.  The claim says the write of the routed
envelope is atomic from the point of view of the Agent Worker: a temporary
location is used and atomically published, or no partial-content read is
possible.  In the code `route_message` overwrites the target inbound file
in place, and in the modelled interleaving semantics a 9-character prefix of
a fresh envelope is observable; a worker polling at that instant reports it
as a change (its digest differs from the remembered one and the content is
nonempty), i.e. partially written envelope content is observable as a
change. -/
theorem C3_counterexample :
    route_message_write "helper" "TS" "general" "hello world"
      = FileWrite.direct "inbox/helper.md" (Router.routed_content "TS" "general" "hello world")
    ∧ String.mk ((Router.routed_content "TS" "general" "hello world").data.take 9)
        ∈ observable_states (Router.routed_content "OLD" "general" "earlier")
            (route_message_write "helper" "TS" "general" "hello world")
    ∧ String.mk ((Router.routed_content "TS" "general" "hello world").data.take 9)
        ≠ Router.routed_content "OLD" "general" "earlier"
    ∧ String.mk ((Router.routed_content "TS" "general" "hello world").data.take 9)
        ≠ Router.routed_content "TS" "general" "hello world"
    ∧ (Agent.check_for_input "helper" "m" "t"
         ⟨some (md5 (Router.routed_content "OLD" "general" "earlier")), none, []⟩
         (some (String.mk ((Router.routed_content "TS" "general" "hello world").data.take 9)))
         (fun _ => Except.ok "out") "TS2" "0.1").2 = true := by
  refine ⟨rfl, by decide, by decide, by decide, by decide⟩

/-- Claim C3, amended.  The Router publishes the routed envelope by a direct
in-place overwrite of the target inbound file (no temporary location, no
atomic publish), so a concurrently polling Agent Worker can observe a
partially written nonempty envelope as a change; only the just-truncated
empty state is never signaled as a change, because the worker ignores
content that is empty after stripping. -/
theorem C3_amended (target ts intent message agentName model tmpl ts2 ptime : String)
    (st : Agent.AgentState) (callModel : String → Except String String) :
    route_message_write target ts intent message
      = FileWrite.direct ("inbox/" ++ target ++ ".md") (Router.routed_content ts intent message)
    ∧ Agent.check_for_input agentName model tmpl st (some "") callModel ts2 ptime = (st, false) := by
  constructor
  · rfl
  · by_cases h : some (md5 "") = st.lastInputHash
    · simp [Agent.check_for_input, h]
    · simp [Agent.check_for_input, h, pyStrip]

/-- Claim C4: for fixed non-empty content at a watched location, the first
cycle after a content change reports changed = true, the remembered digest
is updated in the state the cycle returns, and every subsequent cycle with
the same content returns the same state and changed = false (so the change
is signaled at most once) — proved for the Router watching the shared inbox
and for the Agent Worker watching its own inbox. -/
theorem C4_theorem (rst : Router.RouterState) (ast : Agent.AgentState)
    (c d agentName model tmpl ts1 ts2 ts3 ts4 ptime1 ptime2 : String)
    (cm1 cm2 cm3 cm4 : String → Except String String)
    (hr1 : some (md5 c) ≠ rst.lastChatHash) (hr2 : pyStrip c ≠ "")
    (ha1 : some (md5 d) ≠ ast.lastInputHash) (ha2 : pyStrip d ≠ "") :
    (Router.process_chat_input rst (some c) cm1 ts1).2 = true
    ∧ ((Router.process_chat_input rst (some c) cm1 ts1).1).lastChatHash = some (md5 c)
    ∧ Router.process_chat_input (Router.process_chat_input rst (some c) cm1 ts1).1 (some c) cm2 ts2
        = ((Router.process_chat_input rst (some c) cm1 ts1).1, false)
    ∧ (Agent.check_for_input agentName model tmpl ast (some d) cm3 ts3 ptime1).2 = true
    ∧ ((Agent.check_for_input agentName model tmpl ast (some d) cm3 ts3 ptime1).1).lastInputHash = some (md5 d)
    ∧ Agent.check_for_input agentName model tmpl
        (Agent.check_for_input agentName model tmpl ast (some d) cm3 ts3 ptime1).1 (some d) cm4 ts4 ptime2
        = ((Agent.check_for_input agentName model tmpl ast (some d) cm3 ts3 ptime1).1, false) := by
  have hrs : ((Router.process_chat_input rst (some c) cm1 ts1).1).lastChatHash = some (md5 c) := by
    simp [Router.process_chat_input, if_neg hr1, if_neg hr2]
  have has : ((Agent.check_for_input agentName model tmpl ast (some d) cm3 ts3 ptime1).1).lastInputHash = some (md5 d) := by
    simp [Agent.check_for_input, if_neg ha1, if_neg ha2]
  refine ⟨?_, hrs, process_chat_input_of_hash_eq _ _ _ _ hrs, ?_, has,
    check_for_input_of_hash_eq _ _ _ _ _ _ _ _ has⟩
  · simp [Router.process_chat_input, if_neg hr1, if_neg hr2]
  · simp [Agent.check_for_input, if_neg ha1, if_neg ha2]

/-- Witness for C4_theorem at concrete router and agent states and inputs. -/
theorem C4_witness :
    (some (md5 "add dark mode") ≠ (none : Option String))
    ∧ pyStrip "add dark mode" ≠ ""
    ∧ (some (md5 "fix the bug") ≠ (none : Option String))
    ∧ pyStrip "fix the bug" ≠ ""
    ∧ ((Router.process_chat_input ⟨Router.default_rules, none, fun _ => none, []⟩
          (some "add dark mode") (fun _ => Except.ok "feature_request") "T1").2 = true
       ∧ ((Router.process_chat_input ⟨Router.default_rules, none, fun _ => none, []⟩
          (some "add dark mode") (fun _ => Except.ok "feature_request") "T1").1).lastChatHash = some (md5 "add dark mode")
       ∧ Router.process_chat_input (Router.process_chat_input ⟨Router.default_rules, none, fun _ => none, []⟩
          (some "add dark mode") (fun _ => Except.ok "feature_request") "T1").1 (some "add dark mode") (fun _ => Except.ok "feature_request") "T2"
        = ((Router.process_chat_input ⟨Router.default_rules, none, fun _ => none, []⟩
          (some "add dark mode") (fun _ => Except.ok "feature_request") "T1").1, false)
       ∧ (Agent.check_for_input "coder" "m" "t" ⟨none, none, []⟩ (some "fix the bug") (fun _ => Except.ok "done") "T3" "0.1").2 = true
       ∧ ((Agent.check_for_input "coder" "m" "t" ⟨none, none, []⟩ (some "fix the bug") (fun _ => Except.ok "done") "T3" "0.1").1).lastInputHash = some (md5 "fix the bug")
       ∧ Agent.check_for_input "coder" "m" "t"
           (Agent.check_for_input "coder" "m" "t" ⟨none, none, []⟩ (some "fix the bug") (fun _ => Except.ok "done") "T3" "0.1").1
           (some "fix the bug") (fun _ => Except.ok "done") "T4" "0.2"
         = ((Agent.check_for_input "coder" "m" "t" ⟨none, none, []⟩ (some "fix the bug") (fun _ => Except.ok "done") "T3" "0.1").1, false)) :=
  ⟨by decide, by decide, by decide, by decide,
   C4_theorem ⟨Router.default_rules, none, fun _ => none, []⟩ ⟨none, none, []⟩
     "add dark mode" "fix the bug" "coder" "m" "t" "T1" "T2" "T3" "T4" "0.1" "0.2"
     (fun _ => Except.ok "feature_request") (fun _ => Except.ok "feature_request")
     (fun _ => Except.ok "done") (fun _ => Except.ok "done")
     (by decide) (by decide) (by decide) (by decide)⟩

end ClaudeStack

namespace ClaudeStack

/-- Claim C5, counterexample.  The claim quantifies over every classifier
outcome that is not a member of the closed intent enumeration and says
classify returns the fallback label for all of them, explicitly including
mixed-case labels.  The raw outcome "Feature_Request" is not a member of the
enumeration (not a key of the routing rules), yet classify lowercases it and
returns "feature_request", not the fallback "general". -/
theorem C5_counterexample :
    Router.default_rules.lookup "Feature_Request" = none
    ∧ Router.classify_intent Router.default_rules (fun _ => Except.ok "Feature_Request") "any message"
        = "feature_request"
    ∧ ("feature_request" : String) ≠ "general" := by
  refine ⟨by decide, by decide, by decide⟩

/-- Claim C5, amended.  For every external-classifier outcome whose
whitespace-stripped, lowercased form is not a key of the loaded routing
rules — including an empty string and an exception raised by the external
call — classify returns the fallback label "general" and never propagates a
failure, and resolve_route applied to "general" under the default rules
yields "helper", a valid agent identifier of the dispatch table.
(Mixed-case or whitespace-padded variants of an enumeration label are
normalized and accepted rather than coerced to the fallback.) -/
theorem C5_amended (rules : List (String × String)) (cm : String → Except String String) (message : String)
    (h : ∀ raw, cm (Router.classification_prompt message) = Except.ok raw →
           rules.lookup (pyLower (pyStrip raw)) = none) :
    Router.classify_intent rules cm message = "general"
    ∧ Router.resolve_route Router.default_rules "general" = "helper"
    ∧ "helper" ∈ Router.default_rules.map Prod.snd := by
  refine ⟨?_, by decide, by decide⟩
  unfold Router.classify_intent
  cases hcm : cm (Router.classification_prompt message) with
  | error e => rfl
  | ok raw => simp [h raw hcm]

/-- Witness for C5_amended with a concrete failing external call. -/
theorem C5_witness :
    (∀ raw, (fun _ : String => (Except.error "timeout" : Except String String)) (Router.classification_prompt "hi") = Except.ok raw →
        Router.default_rules.lookup (pyLower (pyStrip raw)) = none)
    ∧ (Router.classify_intent Router.default_rules (fun _ => (Except.error "timeout" : Except String String)) "hi" = "general"
       ∧ Router.resolve_route Router.default_rules "general" = "helper"
       ∧ "helper" ∈ Router.default_rules.map Prod.snd) :=
  ⟨fun _ h => Except.noConfusion h,
   C5_amended Router.default_rules (fun _ => Except.error "timeout") "hi" (fun _ h => Except.noConfusion h)⟩

/-- Claim C6: for every Agent Worker cycle in which the external generation
call fails, the cycle still fires and returns normally (the failure is
consumed inside the cycle, so the polling loop proceeds to the next cycle),
the outbound location is overwritten with the formatted response whose body
is the human-readable error description — independent of whatever response
was there before — and that outbound content is not empty. -/
theorem C6_theorem (agentName model tmpl content ts ptime e : String) (st : Agent.AgentState)
    (h1 : some (md5 content) ≠ st.lastInputHash) (h2 : pyStrip content ≠ "") :
    (Agent.check_for_input agentName model tmpl st (some content) (fun _ => Except.error e) ts ptime).2 = true
    ∧ ((Agent.check_for_input agentName model tmpl st (some content) (fun _ => Except.error e) ts ptime).1).outbox
        = some (Agent.output_content agentName ts ("Error processing request: " ++ e))
    ∧ Agent.output_content agentName ts ("Error processing request: " ++ e) ≠ "" := by
  refine ⟨?_, ?_, output_content_ne_empty _ _ _⟩
  · simp [Agent.check_for_input, if_neg h1, if_neg h2]
  · simp [Agent.check_for_input, if_neg h1, if_neg h2, Agent.process_input]

/-- Witness for C6_theorem at a concrete cycle with a prior response in the
outbox and a failing external call. -/
theorem C6_witness :
    (some (md5 "please refactor") ≠ (none : Option String))
    ∧ pyStrip "please refactor" ≠ ""
    ∧ ((Agent.check_for_input "helper" "m" "t" ⟨none, some "previous", []⟩
          (some "please refactor") (fun _ => Except.error "rate limited") "TS" "0.5").2 = true
       ∧ ((Agent.check_for_input "helper" "m" "t" ⟨none, some "previous", []⟩
          (some "please refactor") (fun _ => Except.error "rate limited") "TS" "0.5").1).outbox
          = some (Agent.output_content "helper" "TS" ("Error processing request: " ++ "rate limited"))
       ∧ Agent.output_content "helper" "TS" ("Error processing request: " ++ "rate limited") ≠ "") :=
  ⟨by decide, by decide,
   C6_theorem "helper" "m" "t" "please refactor" "TS" "0.5" "rate limited" ⟨none, some "previous", []⟩
     (by decide) (by decide)⟩

/-- Claim C7: for every shared-inbox content that is empty after stripping
whitespace, the router cycle reports changed = false and returns the state
completely unchanged — in particular no envelope is written to any inbox of
an agent and the Activity Log gains no entry. -/
theorem C7_theorem (st : Router.RouterState) (c ts : String)
    (cm : String → Except String String) (h : pyStrip c = "") :
    Router.process_chat_input st (some c) cm ts = (st, false) := by
  by_cases hh : some (md5 c) = st.lastChatHash
  · simp [Router.process_chat_input, hh]
  · simp [Router.process_chat_input, hh, h]

/-- Witness for C7_theorem at a concrete whitespace-only inbox content. -/
theorem C7_witness :
    pyStrip "  \n " = ""
    ∧ Router.process_chat_input ⟨Router.default_rules, none, fun _ => none, []⟩
        (some "  \n ") (fun _ => Except.ok "general") "TS"
      = (⟨Router.default_rules, none, fun _ => none, []⟩, false) :=
  ⟨by decide,
   C7_theorem ⟨Router.default_rules, none, fun _ => none, []⟩ "  \n " "TS"
     (fun _ => Except.ok "general") (by decide)⟩

/-- Claim C8: when the persisted routing-rules configuration is absent at
start, the Router synthesizes the documented default table, persists exactly
its serialization, and uses exactly that table; likewise the Agent Worker
with the model-assignment configuration.  Both components are pure functions
of the (absent) persisted file, so restarting after deleting the
configuration regenerates byte-identical bytes: the persisted content is the
fixed term `json_dump_indent2` of the fixed default table. -/
theorem C8_theorem (agentName : String) :
    Router.load_routing_rules none
      = (Router.default_rules, some (json_dump_indent2 Router.default_rules))
    ∧ Agent.load_model_assignment agentName none
        = ((Agent.default_assignments.lookup agentName).getD "claude-3-5-sonnet-20241022",
           some (json_dump_indent2 Agent.default_assignments)) :=
  ⟨rfl, rfl⟩

/-- Claim C9: the fingerprint is computed over the raw untrimmed content
while the routed message is the stripped text.  For two successive non-empty
inbox contents that differ as raw bytes but strip to the same text, the
second cycle fires again (its raw digest differs from the remembered one)
and routes an envelope carrying the identical stripped message. -/
theorem C9_theorem (st : Router.RouterState) (c1 c2 ts1 ts2 : String)
    (cm : String → Except String String)
    (h0 : some (md5 c1) ≠ st.lastChatHash) (h1 : pyStrip c1 ≠ "")
    (hdiff : c1 ≠ c2) (htrim : pyStrip c2 = pyStrip c1) :
    (Router.process_chat_input (Router.process_chat_input st (some c1) cm ts1).1 (some c2) cm ts2).2 = true
    ∧ ((Router.process_chat_input (Router.process_chat_input st (some c1) cm ts1).1 (some c2) cm ts2).1).inboxes
        (Router.resolve_route st.rules (Router.classify_intent st.rules cm (pyStrip c1)))
      = some (Router.routed_content ts2 (Router.classify_intent st.rules cm (pyStrip c1)) (pyStrip c1)) := by
  have e1 := process_chat_input_routes st c1 ts1 cm h0 h1
  have hrules : ((Router.process_chat_input st (some c1) cm ts1).1).rules = st.rules := by rw [e1]
  have hhash : ((Router.process_chat_input st (some c1) cm ts1).1).lastChatHash = some (md5 c1) := by rw [e1]
  have h2' : some (md5 c2) ≠ ((Router.process_chat_input st (some c1) cm ts1).1).lastChatHash := by
    rw [hhash]
    intro hc
    exact hdiff ((Option.some.inj hc).symm)
  have h2ne : pyStrip c2 ≠ "" := htrim ▸ h1
  have e2 := process_chat_input_routes ((Router.process_chat_input st (some c1) cm ts1).1) c2 ts2 cm h2' h2ne
  rw [e2]
  exact ⟨rfl, by simp [htrim, hrules]⟩

/-- Witness for C9_theorem: the contents "hi" and "hi\n" differ as bytes but
strip to the same message, which is routed twice. -/
theorem C9_witness :
    (some (md5 "hi") ≠ (none : Option String))
    ∧ pyStrip "hi" ≠ ""
    ∧ ("hi" : String) ≠ "hi\n"
    ∧ pyStrip "hi\n" = pyStrip "hi"
    ∧ ((Router.process_chat_input (Router.process_chat_input ⟨Router.default_rules, none, fun _ => none, []⟩ (some "hi") (fun _ => Except.ok "general") "T1").1 (some "hi\n") (fun _ => Except.ok "general") "T2").2 = true
       ∧ ((Router.process_chat_input (Router.process_chat_input ⟨Router.default_rules, none, fun _ => none, []⟩ (some "hi") (fun _ => Except.ok "general") "T1").1 (some "hi\n") (fun _ => Except.ok "general") "T2").1).inboxes
           (Router.resolve_route Router.default_rules (Router.classify_intent Router.default_rules (fun _ => Except.ok "general") (pyStrip "hi")))
         = some (Router.routed_content "T2" (Router.classify_intent Router.default_rules (fun _ => Except.ok "general") (pyStrip "hi")) (pyStrip "hi"))) :=
  ⟨by decide, by decide, by decide, by decide,
   C9_theorem ⟨Router.default_rules, none, fun _ => none, []⟩ "hi" "hi\n" "T1" "T2"
     (fun _ => Except.ok "general") (by decide) (by decide) (by decide) (by decide)⟩

/-- Claim C10: every value classify_intent returns is either the literal
"general" or a key of the routing rules loaded at start; acceptance is
decided by membership in the loaded rules (any stripped-lowercased outcome
that is a key of the loaded table is returned as-is, so edited keys change
which outputs are accepted); and when "general" itself is absent from the
mapping, resolve_route falls back to the default agent "helper". -/
theorem C10_theorem (rules : List (String × String)) (cm : String → Except String String) (message : String) :
    (Router.classify_intent rules cm message = "general"
      ∨ (rules.lookup (Router.classify_intent rules cm message)).isSome = true)
    ∧ (rules.lookup "general" = none → Router.resolve_route rules "general" = "helper")
    ∧ (∀ raw, cm (Router.classification_prompt message) = Except.ok raw →
         (rules.lookup (pyLower (pyStrip raw))).isSome = true →
         Router.classify_intent rules cm message = pyLower (pyStrip raw)) := by
  refine ⟨?_, ?_, ?_⟩
  · unfold Router.classify_intent
    cases hcm : cm (Router.classification_prompt message) with
    | error e => exact Or.inl rfl
    | ok raw =>
      by_cases hl : (rules.lookup (pyLower (pyStrip raw))).isSome
      · right
        simp [hl]
      · left
        simp [hl]
  · intro h
    simp [Router.resolve_route, h]
  · intro raw hcm hl
    unfold Router.classify_intent
    rw [hcm]
    simp [hl]

/-- Witness for C10_theorem with an edited routing-rules table whose only
key is "banana": the classifier output " BaNaNa " is accepted after
normalization, and with "general" absent from the table the route falls back
to "helper". -/
theorem C10_witness :
    Router.resolve_route [("banana", "coder")] "general" = "helper"
    ∧ Router.classify_intent [("banana", "coder")] (fun _ => Except.ok " BaNaNa ") "m" = "banana" := by
  refine ⟨(C10_theorem [("banana", "coder")] (fun _ => Except.ok " BaNaNa ") "m").2.1 (by decide), ?_⟩
  have h := (C10_theorem [("banana", "coder")] (fun _ => Except.ok " BaNaNa ") "m").2.2 " BaNaNa " rfl (by decide)
  rw [h]
  decide

end ClaudeStack
